import Mathlib

/-!
Verification development for the Istanbul Gasht store admin dashboard
(`app.py`, `models.py`). The data model and the operations are embedded
shallowly: SQLAlchemy rows become structures, the SQLite store becomes a
`Store` record of lists, SQL aggregates become list folds over `ℚ`
(revenue amounts are modelled as exact rationals), calendar dates become
integers counting days, and each Flask view's POST path becomes a pure
function from the store and the parsed form to the new store and an
outcome.  Commit failures of the activity-log insert (and of the delete
in `delete_product`) are injected as explicit boolean parameters, since
those are the failure modes the error-handling design talks about.
-/

namespace IstanbulGasht

/-- A row of the `products` table (`models.py`, class `Product`).
`price` is a SQL `Float`, modelled as `ℚ`; `stock` is a SQL `Integer`,
modelled as `ℤ` (Python's `int(...)` accepts negative literals, so the
column can hold negative values). `description` is nullable in SQL but
every code path writes a (possibly empty) string. `image_filename` is
nullable. Timestamps are irrelevant to the claims and omitted. -/
structure Product where
  id : Nat
  name : String
  price : ℚ
  category : String
  stock : ℤ
  description : String
  image_filename : Option String
  deriving Repr, DecidableEq

/-- A row of the `orders` table (`models.py`, class `Order`).
`order_date` is a SQL `Date`; dates are modelled as integers counting
days, so `date.today() - timedelta(days=k)` becomes `today - k`. -/
structure Order where
  id : Nat
  product_id : Option Nat
  quantity : ℤ
  total_amount : ℚ
  order_date : ℤ
  deriving Repr, DecidableEq

/-- A row of the `activity_logs` table (`models.py`, class `ActivityLog`).
The server-assigned `created_at` timestamp is modelled by position in the
log list (later entries are newer). -/
structure ActivityEntry where
  action_type : String
  description : String
  deriving Repr, DecidableEq

/-- A row of the `admin_users` table (`models.py`, class `AdminUser`). -/
structure AdminUser where
  id : Nat
  name : String
  email : String
  avatar_filename : Option String
  deriving Repr, DecidableEq

/-- The durable SQLite store: the four tables. The singleton admin row
(`id = 1` by convention, see `edit_profile`) is an `Option`. -/
structure Store where
  products : List Product
  orders : List Order
  admin : Option AdminUser
  activity_logs : List ActivityEntry
  deriving Repr, DecidableEq

/-! ## Analytics engine (the `dashboard` view, `app.py` lines 56-127) -/

/-- Sum of `total_amount` over a list of orders; embeds
`func.coalesce(func.sum(Order.total_amount), 0)` (the coalescing makes
the empty case `0`, which the empty list's sum gives for free). -/
def sumAmounts (l : List Order) : ℚ :=
  (l.map Order.total_amount).sum

/-- Revenue between two dates inclusive: embeds the query
`.filter(Order.order_date >= lo).filter(Order.order_date <= hi)`
followed by the coalesced sum. -/
def revenueBetween (orders : List Order) (lo hi : ℤ) : ℚ :=
  sumAmounts (orders.filter (fun o => lo ≤ o.order_date ∧ o.order_date ≤ hi))

/-- Revenue of a single day: embeds `.filter(Order.order_date == day)`
followed by the coalesced sum. -/
def revenueOn (orders : List Order) (day : ℤ) : ℚ :=
  sumAmounts (orders.filter (fun o => o.order_date = day))

/-- The weekly-growth KPI of the `dashboard` view (`app.py` lines 65-95):
`current_start = today - 6`, `prev_start = current_start - 7`,
`prev_end = current_start - 1`; if the previous period's revenue is
positive the growth is `(current - previous) / previous * 100`,
otherwise `0`. -/
def weeklyGrowth (orders : List Order) (today : ℤ) : ℚ :=
  let current_start := today - 6
  let prev_start := current_start - 7
  let prev_end := current_start - 1
  let current_period_revenue := revenueBetween orders current_start today
  let previous_period_revenue := revenueBetween orders prev_start prev_end
  if previous_period_revenue > 0 then
    (current_period_revenue - previous_period_revenue)
      / previous_period_revenue * 100
  else
    0

/-- Python's `round(x, 2)` on an exact value: round to a multiple of
`1/100`, ties to even (banker's rounding, Python's rounding mode). -/
def round2 (q : ℚ) : ℚ :=
  let s := q * 100
  let f : ℤ := ⌊s⌋
  if s - f < 1 / 2 then f / 100
  else if s - f > 1 / 2 then (f + 1) / 100
  else (if f % 2 = 0 then f / 100 else (f + 1) / 100)

/-- The 7-day sales-trend series of the `dashboard` view (`app.py` lines
97-111). The Python loop `for i in range(6, -1, -1)` visits
`i = 6, 5, ..., 0` and appends the pair for `day = today - i`; iteration
`k` of `List.range 7` corresponds to `i = 6 - k`. Each entry carries the
day (the chart label `day.strftime("%b %d")` is a pure rendering of it)
and the day's revenue rounded to 2 decimals. -/
def sevenDayTrend (orders : List Order) (today : ℤ) : List (ℤ × ℚ) :=
  (List.range 7).map (fun k =>
    let i : ℤ := 6 - (k : ℤ)
    let day := today - i
    (day, round2 (revenueOn orders day)))

/-! ## Form parsing helpers

The views read raw form strings, call `.strip()` on them and parse price
and stock with Python's `float(...)` and `int(...)`. The parsers below
model those builtins on the plain decimal literals the views can
receive: an optional sign, digits, for `float` also a fractional part
and an exponent part. (Python's `float` additionally accepts the words
`inf` and `nan`, and both builtins accept underscore digit separators;
none of those have a rational meaning or matter to the claims.) -/

/-- Python's `str.strip()` with no argument: remove leading and trailing
whitespace (the ASCII whitespace characters of `Char.isWhitespace`). -/
def pyStrip (s : String) : String :=
  String.mk
    (((s.data.dropWhile Char.isWhitespace).reverse.dropWhile
        Char.isWhitespace).reverse)

/-- Numeric value of a decimal digit character. -/
def digitVal (c : Char) : ℕ := c.toNat - Char.toNat '0'

/-- Value of a digit string, most significant digit first. -/
def natOfDigits (l : List Char) : ℕ := l.foldl (fun a c => 10 * a + digitVal c) 0

/-- Strip one optional leading sign; returns (is-negative, rest). -/
def splitSign : List Char → Bool × List Char
  | '+' :: r => (false, r)
  | '-' :: r => (true, r)
  | l => (false, l)

/-- Python's `int(s)` on a plain decimal literal: optional sign followed
by a nonempty run of digits; anything else raises `ValueError` (`none`). -/
def pyInt (s : String) : Option ℤ :=
  let p := splitSign s.data
  if p.2.isEmpty then none
  else if p.2.all Char.isDigit then
    some (if p.1 then -(natOfDigits p.2 : ℤ) else (natOfDigits p.2 : ℤ))
  else none

/-- Mantissa of a `float` literal: digits with an optional decimal point
(at least one digit overall); returns its value and the unconsumed rest. -/
def parseMantissa (l : List Char) : Option (ℚ × List Char) :=
  let intPart := l.takeWhile Char.isDigit
  let rest := l.dropWhile Char.isDigit
  match rest with
  | '.' :: r2 =>
    let fracPart := r2.takeWhile Char.isDigit
    let rest2 := r2.dropWhile Char.isDigit
    if intPart.isEmpty && fracPart.isEmpty then none
    else
      some ((natOfDigits intPart : ℚ)
        + (natOfDigits fracPart : ℚ) / ((10 : ℚ) ^ fracPart.length), rest2)
  | _ =>
    if intPart.isEmpty then none
    else some ((natOfDigits intPart : ℚ), rest)

/-- Optional exponent part `e±digits` of a `float` literal; consuming
nothing is fine (exponent 0), but a bare `e` fails the whole parse. -/
def parseExponent (l : List Char) : Option (ℤ × List Char) :=
  match l with
  | [] => some (0, [])
  | c :: r =>
    if c = 'e' || c = 'E' then
      let p := splitSign r
      let ds := p.2.takeWhile Char.isDigit
      let rest := p.2.dropWhile Char.isDigit
      if ds.isEmpty then none
      else
        some ((if p.1 then -(natOfDigits ds : ℤ) else (natOfDigits ds : ℤ)), rest)
    else some (0, l)

/-- Python's `float(s)` on a plain decimal literal, as an exact rational:
optional sign, mantissa, optional exponent, nothing left over. -/
def pyFloat (s : String) : Option ℚ :=
  let p := splitSign s.data
  match parseMantissa p.2 with
  | none => none
  | some m =>
    match parseExponent m.2 with
    | none => none
    | some e =>
      if e.2.isEmpty then
        some ((if p.1 then -m.1 else m.1) * (10 : ℚ) ^ e.1)
      else none

/-! ## The catalog, profile and activity-recorder operations

Each Flask view's POST path becomes a pure function of the store and the
form. `image`/`avatar` is `some` exactly when the request carries an
upload with a nonempty filename (the views' `if image_file and
image_file.filename` test). The random `uuid4().hex` filename is passed
in as a parameter, and the two storage-failure modes the error-handling
claims are about — the `image_file.save(...)` call raising, and the
activity-log `db.session.commit()` raising — are injected as booleans. -/

/-- The raw form fields of the product create/edit views. -/
structure ProductForm where
  name : String
  price : String
  category : String
  stock : String
  description : String
  image : Option String
  deriving Repr, DecidableEq

/-- The raw form fields of the profile view. -/
structure ProfileForm where
  name : String
  email : String
  avatar : Option String
  deriving Repr, DecidableEq

/-- What a view signals back to the browser.
`validationError` = an error flash plus a redirect back to the form;
`notFound` = the "Product not found." flash; `successOk` = the success
flash; `successWithImageWarning` = the image/avatar-problem error flash
followed by the success flash (asset failure is non-fatal);
`storageFailure` = the "Could not delete this product right now." flash
after a rollback; `serverError` = an uncaught exception, i.e. a 500
page, from a failed activity-log commit. -/
inductive Outcome where
  | validationError
  | notFound
  | successOk
  | successWithImageWarning
  | storageFailure
  | serverError
  deriving Repr, DecidableEq

/-- A view outcome that shows the success flash to the admin. -/
def successful (o : Outcome) : Prop :=
  o = Outcome.successOk ∨ o = Outcome.successWithImageWarning

/-- `Product.query.get(product_id)`: the row with the given primary key. -/
def findProduct (st : Store) (pid : Nat) : Option Product :=
  st.products.find? (fun p => p.id == pid)

/-- The `log_activity` helper (`app.py` lines 43-47): add an
`ActivityLog` row and commit — a commit separate from the one that
persisted the business mutation. -/
def log_activity (st : Store) (action_type description : String) : Store :=
  { st with activity_logs := st.activity_logs ++ [⟨action_type, description⟩] }

/-- The POST path of `create_product` (`app.py` lines 136-188): strip
the fields; reject if a required one is empty; parse price with
`float` and stock with `int`, rejecting on `ValueError`; save the image
under the generated name if one was uploaded, dropping the reference (but
not the product) if the save raises; insert and commit the product; then
`log_activity` in its own commit — if that second commit raises, the
exception escapes the view (500) with the product already durable. -/
def create_product (st : Store) (form : ProductForm) (newId : Nat)
    (imageName : String) (imageSaveFails logCommitFails : Bool) :
    Store × Outcome :=
  let name := pyStrip form.name
  let price_raw := pyStrip form.price
  let category := pyStrip form.category
  let stock_raw := pyStrip form.stock
  let description := pyStrip form.description
  if name = "" || price_raw = "" || category = "" || stock_raw = "" then
    (st, Outcome.validationError)
  else
    match pyFloat price_raw, pyInt stock_raw with
    | some price, some stock =>
      let image_filename : Option String :=
        match form.image with
        | some _ => if imageSaveFails then none else some imageName
        | none => none
      let product : Product :=
        { id := newId, name := name, price := price, category := category,
          stock := stock, description := description,
          image_filename := image_filename }
      let st1 : Store := { st with products := st.products ++ [product] }
      if logCommitFails then (st1, Outcome.serverError)
      else
        (log_activity st1 "product_created"
          ("Product \"" ++ name ++ "\" was created."),
         if form.image.isSome && imageSaveFails then
           Outcome.successWithImageWarning
         else Outcome.successOk)
    | _, _ => (st, Outcome.validationError)

/-- The POST path of `edit_product` (`app.py` lines 190-239): not-found
check, then the same strip/required/parse validation as create; on
success overwrite all scalar fields; replace the image reference only if
a new upload is present and its save does not raise (a raising save
keeps the old reference and only adds a warning flash); commit; then
`log_activity` in its own commit, whose failure escapes as a 500 with
the scalar update already durable. -/
def edit_product (st : Store) (pid : Nat) (form : ProductForm)
    (imageName : String) (imageSaveFails logCommitFails : Bool) :
    Store × Outcome :=
  match findProduct st pid with
  | none => (st, Outcome.notFound)
  | some product =>
    let name := pyStrip form.name
    let price_raw := pyStrip form.price
    let category := pyStrip form.category
    let stock_raw := pyStrip form.stock
    let description := pyStrip form.description
    if name = "" || price_raw = "" || category = "" || stock_raw = "" then
      (st, Outcome.validationError)
    else
      match pyFloat price_raw, pyInt stock_raw with
      | some price, some stock =>
        let image_filename : Option String :=
          match form.image with
          | some _ =>
            if imageSaveFails then product.image_filename else some imageName
          | none => product.image_filename
        let updated : Product :=
          { id := product.id, name := name, price := price,
            category := category, stock := stock, description := description,
            image_filename := image_filename }
        let st1 : Store :=
          { st with products :=
              st.products.map (fun p => if p.id == pid then updated else p) }
        if logCommitFails then (st1, Outcome.serverError)
        else
          (log_activity st1 "product_edited"
            ("Product \"" ++ name ++ "\" was updated."),
           if form.image.isSome && imageSaveFails then
             Outcome.successWithImageWarning
           else Outcome.successOk)
      | _, _ => (st, Outcome.validationError)

/-- The POST path of `delete_product` (`app.py` lines 241-258): not-found
check; the `try` block then deletes the row and commits, logs, and
flashes success. A raising delete-commit is caught, rolled back, and
leaves the store unchanged. A raising log-commit is caught by the same
`except`, but the delete has already been committed, so the product
stays deleted while no activity entry exists. -/
def delete_product (st : Store) (pid : Nat)
    (deleteCommitFails logCommitFails : Bool) : Store × Outcome :=
  match findProduct st pid with
  | none => (st, Outcome.notFound)
  | some product =>
    let name := product.name
    if deleteCommitFails then (st, Outcome.storageFailure)
    else
      let st1 : Store :=
        { st with products := st.products.eraseP (fun p => p.id == pid) }
      if logCommitFails then (st1, Outcome.storageFailure)
      else
        (log_activity st1 "product_deleted"
          ("Product \"" ++ name ++ "\" was deleted."),
         Outcome.successOk)

/-- The seed row `AdminUser(id=1, name="Admin", email="admin@example.com")`
that `edit_profile` lazily creates when the singleton is absent. -/
def defaultAdmin : AdminUser :=
  { id := 1, name := "Admin", email := "admin@example.com",
    avatar_filename := none }

/-- The POST body of `edit_profile` (`app.py` lines 272-302) once the
admin row is at hand: strip name and email, reject if either is empty;
overwrite both; replace the avatar reference only if a new upload is
present and its save does not raise; commit; then `log_activity` in its
own commit, whose failure escapes as a 500. -/
def edit_profile_post (st : Store) (admin : AdminUser) (form : ProfileForm)
    (avatarName : String) (avatarSaveFails logCommitFails : Bool) :
    Store × Outcome :=
  let name := pyStrip form.name
  let email := pyStrip form.email
  if name = "" || email = "" then (st, Outcome.validationError)
  else
    let avatar_filename : Option String :=
      match form.avatar with
      | some _ =>
        if avatarSaveFails then admin.avatar_filename else some avatarName
      | none => admin.avatar_filename
    let updated : AdminUser :=
      { id := admin.id, name := name, email := email,
        avatar_filename := avatar_filename }
    let st1 : Store := { st with admin := some updated }
    if logCommitFails then (st1, Outcome.serverError)
    else
      (log_activity st1 "profile_updated" "Admin profile was updated.",
       if form.avatar.isSome && avatarSaveFails then
         Outcome.successWithImageWarning
       else Outcome.successOk)

/-- The POST path of `edit_profile` (`app.py` lines 262-304): fetch the
singleton admin (`AdminUser.query.get(1)`), lazily seeding and
committing `defaultAdmin` when absent, then process the form. -/
def edit_profile (st : Store) (form : ProfileForm) (avatarName : String)
    (avatarSaveFails logCommitFails : Bool) : Store × Outcome :=
  match st.admin with
  | some admin =>
    edit_profile_post st admin form avatarName avatarSaveFails logCommitFails
  | none =>
    edit_profile_post { st with admin := some defaultAdmin } defaultAdmin
      form avatarName avatarSaveFails logCommitFails

/-- Evaluation helper: if `q * 100` is the integer `n`, then rounding `q`
to 2 decimals returns `n / 100 = q` unchanged. -/
theorem round2_mul_eq_int (q : ℚ) (n : ℤ) (h : q * 100 = (n : ℚ)) :
    round2 q = (n : ℚ) / 100 := by
  simp only [round2, h, Int.floor_intCast, sub_self]
  norm_num

/-- Rounding zero gives zero. -/
theorem round2_zero : round2 0 = 0 := by
  have h := round2_mul_eq_int 0 0 (by norm_num)
  simpa using h

/-- C1: `weeklyGrowth` compares the revenue of `[today - 6, today]`
against the revenue of `[today - 13, today - 7]` and, whenever the
previous window's revenue is positive, returns
`(current - previous) / previous * 100`. -/
theorem weeklyGrowth_window_formula (orders : List Order) (today : ℤ)
    (hprev : 0 < revenueBetween orders (today - 13) (today - 7)) :
    weeklyGrowth orders today =
      (revenueBetween orders (today - 6) today
          - revenueBetween orders (today - 13) (today - 7))
        / revenueBetween orders (today - 13) (today - 7) * 100 := by
  simp only [weeklyGrowth]
  rw [show today - 6 - 7 = today - 13 from by ring,
    show today - 6 - 1 = today - 7 from by ring, if_pos hprev]

/-- C1 witness: the spec's scenario — 100 of revenue on day `D = 0`
(current window) and 50 on day `D - 7` (previous window) — satisfies the
hypothesis and yields growth exactly 100. -/
theorem weeklyGrowth_window_formula_witness :
    0 < revenueBetween [⟨0, none, 1, 100, 0⟩, ⟨1, none, 1, 50, -7⟩] (0 - 13) (0 - 7) ∧
      weeklyGrowth [⟨0, none, 1, 100, 0⟩, ⟨1, none, 1, 50, -7⟩] 0 = 100 := by
  have hprev :
      0 < revenueBetween [⟨0, none, 1, 100, 0⟩, ⟨1, none, 1, 50, -7⟩] ((0 : ℤ) - 13) (0 - 7) := by
    norm_num [revenueBetween, sumAmounts]
  refine ⟨hprev, ?_⟩
  rw [weeklyGrowth_window_formula [⟨0, none, 1, 100, 0⟩, ⟨1, none, 1, 50, -7⟩] 0 hprev]
  norm_num [revenueBetween, sumAmounts]

/-- C2: when the previous window's revenue is exactly 0, `weeklyGrowth`
returns exactly 0, whatever the current window's revenue is. -/
theorem weeklyGrowth_zero_prev (orders : List Order) (today : ℤ)
    (hprev : revenueBetween orders (today - 13) (today - 7) = 0) :
    weeklyGrowth orders today = 0 := by
  simp only [weeklyGrowth]
  rw [show today - 6 - 7 = today - 13 from by ring,
    show today - 6 - 1 = today - 7 from by ring, hprev]
  norm_num

/-- C2 witness: one order of 100 on day 0 leaves the previous window
`[-13, -7]` with revenue 0, and the growth is 0. -/
theorem weeklyGrowth_zero_prev_witness :
    revenueBetween [⟨0, none, 1, 100, 0⟩] (0 - 13) (0 - 7) = 0 ∧
      weeklyGrowth [⟨0, none, 1, 100, 0⟩] 0 = 0 := by
  have hprev : revenueBetween [⟨0, none, 1, 100, 0⟩] ((0 : ℤ) - 13) (0 - 7) = 0 := by
    norm_num [revenueBetween, sumAmounts]
  exact ⟨hprev, weeklyGrowth_zero_prev [⟨0, none, 1, 100, 0⟩] 0 hprev⟩

/-- C3: the trend series has exactly 7 entries; entry `k` is the pair for
calendar day `today - 6 + k` (so the days run chronologically from
`today - 6` to `today`), its revenue is the sum of `total_amount` over
the orders dated exactly that day, rounded to 2 decimals; and a day with
no orders contributes a `0` entry rather than being omitted. -/
theorem sevenDayTrend_spec (orders : List Order) (today : ℤ) :
    (sevenDayTrend orders today).length = 7 ∧
    (∀ k : Nat, k < 7 →
      (sevenDayTrend orders today)[k]? =
        some (today - 6 + (k : ℤ),
          round2 (sumAmounts
            (orders.filter (fun o => o.order_date = today - 6 + (k : ℤ)))))) ∧
    (∀ k : Nat, k < 7 →
      orders.filter (fun o => o.order_date = today - 6 + (k : ℤ)) = [] →
      (sevenDayTrend orders today)[k]? = some (today - 6 + (k : ℤ), 0)) := by
  have hrw : sevenDayTrend orders today =
      (List.range 7).map (fun (k : ℕ) =>
        (today - (6 - (k : ℤ)), round2 (revenueOn orders (today - (6 - (k : ℤ)))))) := rfl
  have hmem : ∀ k : Nat, k < 7 →
      (sevenDayTrend orders today)[k]? =
        some (today - 6 + (k : ℤ),
          round2 (sumAmounts
            (orders.filter (fun o => o.order_date = today - 6 + (k : ℤ))))) := by
    intro k hk
    have e : today - (6 - (k : ℤ)) = today - 6 + (k : ℤ) := by ring
    rw [hrw, List.getElem?_map, List.getElem?_range hk]
    simp [revenueOn, e]
  have hlen : (sevenDayTrend orders today).length = 7 := by
    rw [hrw, List.length_map, List.length_range]
  refine ⟨hlen, hmem, ?_⟩
  intro k hk hempty
  rw [hmem k hk, hempty]
  simp [sumAmounts, round2_zero]

/-- C3 witness: with a single order of 100.5 on day 0, the series at
`today = 0` has 7 entries, its last entry is day 0 with revenue 100.5,
and its first entry is the order-less day `-6` with revenue 0. -/
theorem sevenDayTrend_spec_witness :
    (sevenDayTrend [⟨0, none, 1, (201 : ℚ) / 2, 0⟩] 0).length = 7 ∧
    (sevenDayTrend [⟨0, none, 1, (201 : ℚ) / 2, 0⟩] 0)[6]? =
      some (0, (201 : ℚ) / 2) ∧
    (sevenDayTrend [⟨0, none, 1, (201 : ℚ) / 2, 0⟩] 0)[0]? = some (-6, 0) := by
  obtain ⟨h1, h2, h3⟩ := sevenDayTrend_spec [⟨0, none, 1, (201 : ℚ) / 2, 0⟩] 0
  refine ⟨h1, ?_, ?_⟩
  · have h := h2 6 (by norm_num)
    rw [h]
    have hr : round2 ((201 : ℚ) / 2) = ((10050 : ℤ) : ℚ) / 100 :=
      round2_mul_eq_int _ _ (by norm_num)
    norm_num [sumAmounts, hr]
  · have h := h3 0 (by norm_num) (by norm_num)
    simpa using h

/-! ## Branch-analysis helpers for the mutating operations -/

/-- If the stripped price does not parse as a float or the stripped
stock does not parse as an int, `create_product` rejects and leaves the
store untouched (either through the required-fields check or through the
`ValueError` handler). -/
theorem create_product_parse_failure (st : Store) (form : ProductForm)
    (newId : Nat) (imageName : String) (iFail lFail : Bool)
    (h : pyFloat (pyStrip form.price) = none ∨
      pyInt (pyStrip form.stock) = none) :
    create_product st form newId imageName iFail lFail =
      (st, Outcome.validationError) := by
  simp only [create_product]
  split
  · rfl
  · rcases h with h | h
    · rw [h]
    · rw [h]
      cases pyFloat (pyStrip form.price) <;> rfl

/-- The same parse-failure rejection for `edit_product` on an existing
product. -/
theorem edit_product_parse_failure (st : Store) (pid : Nat)
    (form : ProductForm) (imageName : String) (iFail lFail : Bool)
    (p : Product) (hp : findProduct st pid = some p)
    (h : pyFloat (pyStrip form.price) = none ∨
      pyInt (pyStrip form.stock) = none) :
    edit_product st pid form imageName iFail lFail =
      (st, Outcome.validationError) := by
  simp only [edit_product, hp]
  split
  · rfl
  · rcases h with h | h
    · rw [h]
    · rw [h]
      cases pyFloat (pyStrip form.price) <;> rfl

/-- `create_product` only ever appends to the activity log, and appends
exactly one entry when it reports success. -/
theorem create_product_log (st : Store) (form : ProductForm) (newId : Nat)
    (imageName : String) (iFail lFail : Bool) :
    ∃ t, (create_product st form newId imageName iFail lFail).1.activity_logs
        = st.activity_logs ++ t ∧
      (successful (create_product st form newId imageName iFail lFail).2 →
        ∃ e, t = [e]) := by
  simp only [create_product]
  split
  · exact ⟨[], by simp, by intro hs; simp [successful] at hs⟩
  · split
    · split
      · exact ⟨[], by simp, by intro hs; simp [successful] at hs⟩
      · exact ⟨_, rfl, fun _ => ⟨_, rfl⟩⟩
    · exact ⟨[], by simp, by intro hs; simp [successful] at hs⟩

/-- `edit_product` only ever appends to the activity log, and appends
exactly one entry when it reports success. -/
theorem edit_product_log (st : Store) (pid : Nat) (form : ProductForm)
    (imageName : String) (iFail lFail : Bool) :
    ∃ t, (edit_product st pid form imageName iFail lFail).1.activity_logs
        = st.activity_logs ++ t ∧
      (successful (edit_product st pid form imageName iFail lFail).2 →
        ∃ e, t = [e]) := by
  simp only [edit_product]
  split
  · exact ⟨[], by simp, by intro hs; simp [successful] at hs⟩
  · split
    · exact ⟨[], by simp, by intro hs; simp [successful] at hs⟩
    · split
      · split
        · exact ⟨[], by simp, by intro hs; simp [successful] at hs⟩
        · exact ⟨_, rfl, fun _ => ⟨_, rfl⟩⟩
      · exact ⟨[], by simp, by intro hs; simp [successful] at hs⟩

/-- `delete_product` only ever appends to the activity log, and appends
exactly one entry when it reports success. -/
theorem delete_product_log (st : Store) (pid : Nat)
    (dFail lFail : Bool) :
    ∃ t, (delete_product st pid dFail lFail).1.activity_logs
        = st.activity_logs ++ t ∧
      (successful (delete_product st pid dFail lFail).2 →
        ∃ e, t = [e]) := by
  simp only [delete_product]
  split
  · exact ⟨[], by simp, by intro hs; simp [successful] at hs⟩
  · split
    · exact ⟨[], by simp, by intro hs; simp [successful] at hs⟩
    · split
      · exact ⟨[], by simp, by intro hs; simp [successful] at hs⟩
      · exact ⟨_, rfl, fun _ => ⟨_, rfl⟩⟩

/-- `edit_profile_post` only ever appends to the activity log, and
appends exactly one entry when it reports success. -/
theorem edit_profile_post_log (st : Store) (admin : AdminUser)
    (form : ProfileForm) (avatarName : String) (aFail lFail : Bool) :
    ∃ t, (edit_profile_post st admin form avatarName aFail lFail).1.activity_logs
        = st.activity_logs ++ t ∧
      (successful (edit_profile_post st admin form avatarName aFail lFail).2 →
        ∃ e, t = [e]) := by
  simp only [edit_profile_post]
  split
  · exact ⟨[], by simp, by intro hs; simp [successful] at hs⟩
  · split
    · exact ⟨[], by simp, by intro hs; simp [successful] at hs⟩
    · exact ⟨_, rfl, fun _ => ⟨_, rfl⟩⟩

/-- If any required product field strips to the empty string,
`create_product` rejects and leaves the store untouched. -/
theorem create_product_required_empty (st : Store) (form : ProductForm)
    (newId : Nat) (imageName : String) (iFail lFail : Bool)
    (h : pyStrip form.name = "" ∨ pyStrip form.price = "" ∨
      pyStrip form.category = "" ∨ pyStrip form.stock = "") :
    create_product st form newId imageName iFail lFail =
      (st, Outcome.validationError) := by
  simp only [create_product]
  rcases h with h | h | h | h <;> simp [h]

/-- If any required product field strips to the empty string,
`edit_product` on an existing product rejects and leaves the store
untouched. -/
theorem edit_product_required_empty (st : Store) (pid : Nat)
    (form : ProductForm) (imageName : String) (iFail lFail : Bool)
    (p : Product) (hp : findProduct st pid = some p)
    (h : pyStrip form.name = "" ∨ pyStrip form.price = "" ∨
      pyStrip form.category = "" ∨ pyStrip form.stock = "") :
    edit_product st pid form imageName iFail lFail =
      (st, Outcome.validationError) := by
  simp only [edit_product, hp]
  rcases h with h | h | h | h <;> simp [h]

/-- If name or email strips to the empty string, the profile update on an
existing admin row rejects and leaves the store untouched. -/
theorem edit_profile_required_empty (st : Store) (form : ProfileForm)
    (avatarName : String) (aFail lFail : Bool)
    (a : AdminUser) (ha : st.admin = some a)
    (h : pyStrip form.name = "" ∨ pyStrip form.email = "") :
    edit_profile st form avatarName aFail lFail =
      (st, Outcome.validationError) := by
  simp only [edit_profile, ha, edit_profile_post]
  rcases h with h | h <;> simp [h]

/-- Shape of a successful `create_product`: exactly one product row is
appended, built from the stripped form fields and the parsed price and
stock, and exactly one `product_created` entry is logged. -/
theorem create_product_success_shape (st : Store) (form : ProductForm)
    (newId : Nat) (imageName : String) (iFail lFail : Bool)
    (h : successful (create_product st form newId imageName iFail lFail).2) :
    ∃ prod : Product,
      (create_product st form newId imageName iFail lFail).1 =
        { st with
            products := st.products ++ [prod],
            activity_logs := st.activity_logs ++
              [⟨"product_created",
                "Product \"" ++ pyStrip form.name ++ "\" was created."⟩] } ∧
      prod.id = newId ∧
      prod.name = pyStrip form.name ∧
      prod.category = pyStrip form.category ∧
      prod.description = pyStrip form.description ∧
      pyFloat (pyStrip form.price) = some prod.price ∧
      pyInt (pyStrip form.stock) = some prod.stock := by
  revert h
  simp only [create_product]
  split
  · intro hs; simp [successful] at hs
  · split
    · rename_i price stock hprice hstock
      split
      · intro hs; simp [successful] at hs
      · intro _
        exact ⟨_, rfl, rfl, rfl, rfl, rfl, hprice, hstock⟩
    · intro hs; simp [successful] at hs

/-- Shape of a successful `edit_product`: the row with the given id is
replaced by a product built from the stripped form fields and the parsed
price and stock, keeping the old image reference when no upload is
present, and exactly one `product_edited` entry is logged. -/
theorem edit_product_success_shape (st : Store) (pid : Nat)
    (form : ProductForm) (imageName : String) (iFail lFail : Bool)
    (p : Product) (hp : findProduct st pid = some p)
    (h : successful (edit_product st pid form imageName iFail lFail).2) :
    ∃ upd : Product,
      (edit_product st pid form imageName iFail lFail).1 =
        { st with
            products :=
              st.products.map (fun q => if q.id == pid then upd else q),
            activity_logs := st.activity_logs ++
              [⟨"product_edited",
                "Product \"" ++ pyStrip form.name ++ "\" was updated."⟩] } ∧
      upd.id = p.id ∧
      upd.name = pyStrip form.name ∧
      upd.category = pyStrip form.category ∧
      upd.description = pyStrip form.description ∧
      pyFloat (pyStrip form.price) = some upd.price ∧
      pyInt (pyStrip form.stock) = some upd.stock ∧
      (form.image = none → upd.image_filename = p.image_filename) := by
  revert h
  simp only [edit_product, hp]
  split
  · intro hs; simp [successful] at hs
  · split
    · rename_i price stock hprice hstock
      split
      · intro hs; simp [successful] at hs
      · intro _
        exact ⟨_, rfl, rfl, rfl, rfl, rfl, hprice, hstock,
          fun hn => by simp [hn]⟩
    · intro hs; simp [successful] at hs

/-- Shape of a successful `edit_profile_post`: the admin row is replaced
by one with the stripped name and email, and exactly one
`profile_updated` entry is logged. -/
theorem edit_profile_post_success_shape (st : Store) (admin : AdminUser)
    (form : ProfileForm) (avatarName : String) (aFail lFail : Bool)
    (h : successful (edit_profile_post st admin form avatarName aFail lFail).2) :
    ∃ adm : AdminUser,
      (edit_profile_post st admin form avatarName aFail lFail).1 =
        { st with
            admin := some adm,
            activity_logs := st.activity_logs ++
              [⟨"profile_updated", "Admin profile was updated."⟩] } ∧
      adm.id = admin.id ∧
      adm.name = pyStrip form.name ∧
      adm.email = pyStrip form.email ∧
      (form.avatar = none → adm.avatar_filename = admin.avatar_filename) := by
  revert h
  simp only [edit_profile_post]
  split
  · intro hs; simp [successful] at hs
  · split
    · intro hs; simp [successful] at hs
    · intro _
      exact ⟨_, rfl, rfl, rfl, rfl, fun hn => by simp [hn]⟩

/-- `edit_profile` (lazy seed included) only ever appends to the activity
log, and appends exactly one entry when it reports success. -/
theorem edit_profile_log (st : Store) (form : ProfileForm)
    (avatarName : String) (aFail lFail : Bool) :
    ∃ t, (edit_profile st form avatarName aFail lFail).1.activity_logs
        = st.activity_logs ++ t ∧
      (successful (edit_profile st form avatarName aFail lFail).2 →
        ∃ e, t = [e]) := by
  simp only [edit_profile]
  cases hadm : st.admin with
  | some admin => exact edit_profile_post_log st admin form avatarName aFail lFail
  | none =>
    exact edit_profile_post_log { st with admin := some defaultAdmin }
      defaultAdmin form avatarName aFail lFail

/-- Concrete evaluation: a fully valid create on the empty store
appends the product row and one `product_created` entry. -/
theorem create_widget_eval :
    create_product ⟨[], [], none, []⟩ ⟨"Widget", "10", "Toys", "4", "", none⟩
        1 "img" false false =
      (⟨[⟨1, "Widget", 10, "Toys", 4, "", none⟩], [], none,
        [⟨"product_created", "Product \"Widget\" was created."⟩]⟩,
       Outcome.successOk) := by
  have hf : pyFloat "10" = some 10 := by
    simp +decide [pyFloat, splitSign, parseMantissa, parseExponent,
      natOfDigits, digitVal]
  have hi : pyInt "4" = some 4 := by
    simp +decide [pyInt, splitSign, natOfDigits, digitVal]
  simp +decide [create_product, log_activity,
    show pyStrip "Widget" = "Widget" from rfl,
    show pyStrip "10" = "10" from rfl,
    show pyStrip "Toys" = "Toys" from rfl,
    show pyStrip "4" = "4" from rfl,
    show pyStrip "" = "" from rfl, hf, hi]

/-- C4: claimed — a Create or Update input with a negative price such as
`"-5"` (or a negative stock) signals a ValidationError and performs no
mutation. Counterexample: the code only checks that `float(price)` and
`int(stock)` parse, so `"-5"`/`"-3"` are accepted: the create succeeds,
persists a product with price `-5` and stock `-3`, and logs an entry. -/
theorem create_product_accepts_negative_input :
    create_product ⟨[], [], none, []⟩ ⟨"Widget", "-5", "Toys", "-3", "", none⟩
        1 "img" false false =
      (⟨[⟨1, "Widget", -5, "Toys", -3, "", none⟩], [], none,
        [⟨"product_created", "Product \"Widget\" was created."⟩]⟩,
       Outcome.successOk) := by
  have hf : pyFloat "-5" = some (-5) := by
    simp +decide [pyFloat, splitSign, parseMantissa, parseExponent,
      natOfDigits, digitVal]
  have hi : pyInt "-3" = some (-3) := by
    simp +decide [pyInt, splitSign, natOfDigits, digitVal]
  simp +decide [create_product, log_activity,
    show pyStrip "Widget" = "Widget" from rfl,
    show pyStrip "-5" = "-5" from rfl,
    show pyStrip "Toys" = "Toys" from rfl,
    show pyStrip "-3" = "-3" from rfl,
    show pyStrip "" = "" from rfl, hf, hi]

/-- C4 (amended): an input whose price does not parse under `float` or
whose stock does not parse under `int` is rejected by both Create and
Update with a ValidationError and no mutation at all; negative numerals,
however, do parse and are accepted (no non-negativity check exists). -/
theorem catalog_parse_failure_no_mutation (st : Store) (form : ProductForm)
    (pid newId : Nat) (imageName : String) (iFail lFail : Bool)
    (h : pyFloat (pyStrip form.price) = none ∨
      pyInt (pyStrip form.stock) = none) :
    create_product st form newId imageName iFail lFail =
      (st, Outcome.validationError) ∧
    (∀ p, findProduct st pid = some p →
      edit_product st pid form imageName iFail lFail =
        (st, Outcome.validationError)) :=
  ⟨create_product_parse_failure st form newId imageName iFail lFail h,
   fun p hp =>
     edit_product_parse_failure st pid form imageName iFail lFail p hp h⟩

/-- C4 witness: price `"x9"` parses under neither builtin; create on the
empty store and edit on a one-product store both reject unchanged. -/
theorem catalog_parse_failure_no_mutation_witness :
    create_product ⟨[], [], none, []⟩ ⟨"Widget", "x9", "Toys", "4", "", none⟩
        1 "img" false false = (⟨[], [], none, []⟩, Outcome.validationError) ∧
    edit_product ⟨[⟨1, "W", 10, "T", 4, "", none⟩], [], none, []⟩ 1
        ⟨"Widget", "x9", "Toys", "4", "", none⟩ "img" false false =
      (⟨[⟨1, "W", 10, "T", 4, "", none⟩], [], none, []⟩,
       Outcome.validationError) := by
  have hx : pyFloat (pyStrip "x9") = none := by
    simp +decide [pyFloat, splitSign, parseMantissa,
      show pyStrip "x9" = "x9" from rfl]
  refine ⟨(catalog_parse_failure_no_mutation ⟨[], [], none, []⟩
      ⟨"Widget", "x9", "Toys", "4", "", none⟩ 1 1 "img" false false
      (Or.inl hx)).1, ?_⟩
  exact (catalog_parse_failure_no_mutation
      ⟨[⟨1, "W", 10, "T", 4, "", none⟩], [], none, []⟩
      ⟨"Widget", "x9", "Toys", "4", "", none⟩ 1 1 "img" false false
      (Or.inl hx)).2 ⟨1, "W", 10, "T", 4, "", none⟩ (by
        simp +decide [findProduct])

/-- C9: a Create input whose price is a non-numeric string signals a
ValidationError and leaves the store untouched — no product row and no
activity-log entry. -/
theorem create_nonnumeric_price_rejected (st : Store) (form : ProductForm)
    (newId : Nat) (imageName : String) (iFail lFail : Bool)
    (h : pyFloat (pyStrip form.price) = none) :
    create_product st form newId imageName iFail lFail =
      (st, Outcome.validationError) :=
  create_product_parse_failure st form newId imageName iFail lFail (Or.inl h)

/-- C9 witness: the spec's example price `"abc"` on the empty store. -/
theorem create_nonnumeric_price_rejected_witness :
    create_product ⟨[], [], none, []⟩ ⟨"Widget", "abc", "Toys", "4", "", none⟩
        1 "img" false false = (⟨[], [], none, []⟩, Outcome.validationError) :=
  create_nonnumeric_price_rejected ⟨[], [], none, []⟩
    ⟨"Widget", "abc", "Toys", "4", "", none⟩ 1 "img" false false
    (by simp +decide [pyFloat, splitSign, parseMantissa,
      show pyStrip "abc" = "abc" from rfl])

/-- C5: claimed — every mutating operation and its activity-log append
form one atomic unit, so a state with the business mutation durable but
no log entry is unreachable. Counterexample: the views commit the
mutation first and `log_activity` commits separately; when the log
commit fails, the created product is durable while the log stays empty,
a straddling state. -/
theorem create_log_commit_failure_straddle :
    create_product ⟨[], [], none, []⟩ ⟨"Widget", "10", "Toys", "4", "", none⟩
        1 "img" false true =
      (⟨[⟨1, "Widget", 10, "Toys", 4, "", none⟩], [], none, []⟩,
       Outcome.serverError) := by
  have hf : pyFloat "10" = some 10 := by
    simp +decide [pyFloat, splitSign, parseMantissa, parseExponent,
      natOfDigits, digitVal]
  have hi : pyInt "4" = some 4 := by
    simp +decide [pyInt, splitSign, natOfDigits, digitVal]
  simp +decide [create_product,
    show pyStrip "Widget" = "Widget" from rfl,
    show pyStrip "10" = "10" from rfl,
    show pyStrip "Toys" = "Toys" from rfl,
    show pyStrip "4" = "4" from rfl,
    show pyStrip "" = "" from rfl, hf, hi]

/-- C5 (amended): the business mutation and its activity-log append are
two separate commits; when the log append fails on a valid input, the
already-committed mutation (created row, overwritten row, deleted row,
updated admin) remains durable while the log is unchanged, and the
operation surfaces an error (a 500, or for delete the storage-failure
flash). Straddling states are reachable, not prevented. -/
theorem mutation_and_log_separate_commits (st : Store) (form : ProductForm)
    (pform : ProfileForm) (pid newId : Nat) (imageName avatarName : String)
    (iFail aFail : Bool) (price : ℚ) (stock : ℤ)
    (hname : pyStrip form.name ≠ "") (hcat : pyStrip form.category ≠ "")
    (hprice : pyFloat (pyStrip form.price) = some price)
    (hstock : pyInt (pyStrip form.stock) = some stock)
    (hpname : pyStrip pform.name ≠ "") (hpemail : pyStrip pform.email ≠ "") :
    (∃ prod, create_product st form newId imageName iFail true =
      ({ st with products := st.products ++ [prod] },
       Outcome.serverError)) ∧
    (∀ p, findProduct st pid = some p →
      ∃ upd, edit_product st pid form imageName iFail true =
        ({ st with products :=
            st.products.map (fun q => if q.id == pid then upd else q) },
         Outcome.serverError)) ∧
    (∀ p, findProduct st pid = some p →
      delete_product st pid false true =
        ({ st with products := st.products.eraseP (fun q => q.id == pid) },
         Outcome.storageFailure)) ∧
    (∀ a, st.admin = some a →
      ∃ adm, edit_profile st pform avatarName aFail true =
        ({ st with admin := some adm }, Outcome.serverError)) := by
  have hpr : pyStrip form.price ≠ "" := by
    intro he
    rw [he] at hprice
    exact Option.noConfusion hprice
  have hst : pyStrip form.stock ≠ "" := by
    intro he
    rw [he] at hstock
    exact Option.noConfusion hstock
  refine ⟨?_, ?_, ?_, ?_⟩
  · simp only [create_product]
    simp [hname, hpr, hcat, hst, hprice, hstock]
  · intro p hp
    simp only [edit_product, hp]
    simp [hname, hpr, hcat, hst, hprice, hstock]
    exact ⟨_, fun a _ => rfl⟩
  · intro p hp
    simp only [delete_product, hp]
    simp
  · intro a ha
    simp only [edit_profile, ha, edit_profile_post]
    simp [hpname, hpemail]

/-- C5 witness: the create conjunct at a concrete valid input on the
empty store — the product row is durable, the log empty, the view 500s. -/
theorem mutation_and_log_separate_commits_witness :
    ∃ prod, create_product ⟨[], [], none, []⟩
        ⟨"Widget", "10", "Toys", "4", "", none⟩ 1 "img" false true =
      ({ products := [prod], orders := [], admin := none,
         activity_logs := [] }, Outcome.serverError) := by
  have hf : pyFloat (pyStrip "10") = some 10 := by
    simp +decide [pyFloat, splitSign, parseMantissa, parseExponent,
      natOfDigits, digitVal, show pyStrip "10" = "10" from rfl]
  have hi : pyInt (pyStrip "4") = some 4 := by
    simp +decide [pyInt, splitSign, natOfDigits, digitVal,
      show pyStrip "4" = "4" from rfl]
  have h := (mutation_and_log_separate_commits ⟨[], [], none, []⟩
    ⟨"Widget", "10", "Toys", "4", "", none⟩ ⟨"Ad", "a@b.c", none⟩ 1 1
    "img" "av" false false 10 4 (by decide) (by decide) hf hi
    (by decide) (by decide)).1
  simpa using h

/-- C6: deleting a missing id signals NotFound and changes nothing (no
log entry); a failing delete commit rolls back, leaving the store
unchanged with no log entry; a successful delete removes exactly the row
with that id and logs a `product_deleted` entry carrying the name
captured before the deletion. -/
theorem delete_product_spec (st : Store) (pid : Nat) (dFail lFail : Bool) :
    (findProduct st pid = none →
      delete_product st pid dFail lFail = (st, Outcome.notFound)) ∧
    (findProduct st pid ≠ none → dFail = true →
      delete_product st pid dFail lFail = (st, Outcome.storageFailure)) ∧
    (∀ p, findProduct st pid = some p →
      delete_product st pid false false =
        ({ st with
            products := st.products.eraseP (fun q => q.id == pid),
            activity_logs := st.activity_logs ++
              [⟨"product_deleted",
                "Product \"" ++ p.name ++ "\" was deleted."⟩] },
         Outcome.successOk)) := by
  refine ⟨?_, ?_, ?_⟩
  · intro h
    simp only [delete_product, h]
  · intro h hd
    obtain ⟨p, hp⟩ := Option.ne_none_iff_exists'.mp h
    subst hd
    simp only [delete_product, hp]
    rfl
  · intro p hp
    simp only [delete_product, hp]
    rfl

/-- C6 witness: on a one-product store, deleting id 1 succeeds, removes
the row and logs the captured name; deleting from the empty store is
NotFound; a failing delete commit leaves the one-product store intact. -/
theorem delete_product_spec_witness :
    delete_product ⟨[⟨1, "W", 10, "T", 4, "", none⟩], [], none, []⟩ 1
        false false =
      (⟨[], [], none, [⟨"product_deleted", "Product \"W\" was deleted."⟩]⟩,
       Outcome.successOk) ∧
    delete_product ⟨[], [], none, []⟩ 1 false false =
      (⟨[], [], none, []⟩, Outcome.notFound) ∧
    delete_product ⟨[⟨1, "W", 10, "T", 4, "", none⟩], [], none, []⟩ 1
        true false =
      (⟨[⟨1, "W", 10, "T", 4, "", none⟩], [], none, []⟩,
       Outcome.storageFailure) := by
  have hfind : findProduct ⟨[⟨1, "W", 10, "T", 4, "", none⟩], [], none, []⟩ 1 =
      some ⟨1, "W", 10, "T", 4, "", none⟩ := by
    simp +decide [findProduct]
  refine ⟨?_, ?_, ?_⟩
  · have h := (delete_product_spec
      ⟨[⟨1, "W", 10, "T", 4, "", none⟩], [], none, []⟩ 1 false false).2.2
      ⟨1, "W", 10, "T", 4, "", none⟩ hfind
    rw [h]
    simp +decide [List.eraseP]
  · exact (delete_product_spec ⟨[], [], none, []⟩ 1 false false).1 rfl
  · exact (delete_product_spec
      ⟨[⟨1, "W", 10, "T", 4, "", none⟩], [], none, []⟩ 1 true false).2.1
      (by rw [hfind]; exact fun hc => Option.noConfusion hc) rfl

/-- C7: on an existing product and a valid update input, `edit_product`
overwrites every scalar field (name, price, category, stock,
description) with the stripped or parsed form values; the image
reference is replaced only when a new upload is present and saving it
succeeds; with no upload the old reference is kept; and when the save
raises, the old reference is kept while the scalar update and the
success flash still go through (the outcome only gains a warning). -/
theorem edit_product_update_semantics (st : Store) (pid : Nat)
    (form : ProductForm) (imageName : String) (p : Product)
    (price : ℚ) (stock : ℤ)
    (hp : findProduct st pid = some p)
    (hname : pyStrip form.name ≠ "") (hcat : pyStrip form.category ≠ "")
    (hprice : pyFloat (pyStrip form.price) = some price)
    (hstock : pyInt (pyStrip form.stock) = some stock) :
    (∀ iFail, form.image = none →
      edit_product st pid form imageName iFail false =
        ({ st with
            products := st.products.map (fun q => if q.id == pid then
              ⟨p.id, pyStrip form.name, price, pyStrip form.category, stock,
                pyStrip form.description, p.image_filename⟩ else q),
            activity_logs := st.activity_logs ++
              [⟨"product_edited",
                "Product \"" ++ pyStrip form.name ++ "\" was updated."⟩] },
         Outcome.successOk)) ∧
    (∀ f, form.image = some f →
      edit_product st pid form imageName false false =
        ({ st with
            products := st.products.map (fun q => if q.id == pid then
              ⟨p.id, pyStrip form.name, price, pyStrip form.category, stock,
                pyStrip form.description, some imageName⟩ else q),
            activity_logs := st.activity_logs ++
              [⟨"product_edited",
                "Product \"" ++ pyStrip form.name ++ "\" was updated."⟩] },
         Outcome.successOk)) ∧
    (∀ f, form.image = some f →
      edit_product st pid form imageName true false =
        ({ st with
            products := st.products.map (fun q => if q.id == pid then
              ⟨p.id, pyStrip form.name, price, pyStrip form.category, stock,
                pyStrip form.description, p.image_filename⟩ else q),
            activity_logs := st.activity_logs ++
              [⟨"product_edited",
                "Product \"" ++ pyStrip form.name ++ "\" was updated."⟩] },
         Outcome.successWithImageWarning)) := by
  have hpr : pyStrip form.price ≠ "" := by
    intro he
    rw [he] at hprice
    exact Option.noConfusion hprice
  have hst : pyStrip form.stock ≠ "" := by
    intro he
    rw [he] at hstock
    exact Option.noConfusion hstock
  refine ⟨?_, ?_, ?_⟩
  · intro iFail hn
    simp only [edit_product, hp]
    simp [hname, hpr, hcat, hst, hprice, hstock, hn, log_activity]
  · intro f hf
    simp only [edit_product, hp]
    simp [hname, hpr, hcat, hst, hprice, hstock, hf, log_activity]
  · intro f hf
    simp only [edit_product, hp]
    simp [hname, hpr, hcat, hst, hprice, hstock, hf, log_activity]

/-- C7 witness: on a store whose product 1 carries image `old.png`, an
update with a failing upload keeps `old.png`, overwrites the scalars and
still succeeds (with the warning); the same update with no upload keeps
`old.png` and succeeds cleanly. -/
theorem edit_product_update_semantics_witness :
    edit_product ⟨[⟨1, "W", 10, "T", 4, "", some "old.png"⟩], [], none, []⟩ 1
        ⟨"N", "12", "C", "7", "d", some "up.png"⟩ "new.png" true false =
      (⟨[⟨1, "N", 12, "C", 7, "d", some "old.png"⟩], [], none,
        [⟨"product_edited", "Product \"N\" was updated."⟩]⟩,
       Outcome.successWithImageWarning) ∧
    edit_product ⟨[⟨1, "W", 10, "T", 4, "", some "old.png"⟩], [], none, []⟩ 1
        ⟨"N", "12", "C", "7", "d", none⟩ "new.png" false false =
      (⟨[⟨1, "N", 12, "C", 7, "d", some "old.png"⟩], [], none,
        [⟨"product_edited", "Product \"N\" was updated."⟩]⟩,
       Outcome.successOk) := by
  have hfind : findProduct
      ⟨[⟨1, "W", 10, "T", 4, "", some "old.png"⟩], [], none, []⟩ 1 =
      some ⟨1, "W", 10, "T", 4, "", some "old.png"⟩ := by
    simp +decide [findProduct]
  have hprice : pyFloat (pyStrip "12") = some 12 := by
    simp +decide [pyFloat, splitSign, parseMantissa, parseExponent,
      natOfDigits, digitVal, show pyStrip "12" = "12" from rfl]
  have hstock : pyInt (pyStrip "7") = some 7 := by
    simp +decide [pyInt, splitSign, natOfDigits, digitVal,
      show pyStrip "7" = "7" from rfl]
  constructor
  · have h := (edit_product_update_semantics
      ⟨[⟨1, "W", 10, "T", 4, "", some "old.png"⟩], [], none, []⟩ 1
      ⟨"N", "12", "C", "7", "d", some "up.png"⟩ "new.png"
      ⟨1, "W", 10, "T", 4, "", some "old.png"⟩ 12 7 hfind
      (by decide) (by decide) hprice hstock).2.2 "up.png" rfl
    rw [h]
    simp +decide
  · have h := (edit_product_update_semantics
      ⟨[⟨1, "W", 10, "T", 4, "", some "old.png"⟩], [], none, []⟩ 1
      ⟨"N", "12", "C", "7", "d", none⟩ "new.png"
      ⟨1, "W", 10, "T", 4, "", some "old.png"⟩ 12 7 hfind
      (by decide) (by decide) hprice hstock).1 false rfl
    rw [h]
    simp +decide

/-- C8: each of the four mutating views — create, edit and delete of a
product, and the profile update — appends exactly one activity-log entry
when it reports success, and no run of any of them ever rewrites or
drops an existing entry: the resulting log is always the old log plus a
(possibly empty) appended suffix. -/
theorem activity_log_exactly_once_append_only (st : Store)
    (form : ProductForm) (pform : ProfileForm) (pid newId : Nat)
    (imageName avatarName : String) (iFail lFail dFail aFail : Bool) :
    ((successful (create_product st form newId imageName iFail lFail).2 →
      ∃ e, (create_product st form newId imageName iFail lFail).1.activity_logs =
        st.activity_logs ++ [e]) ∧
     ∃ t, (create_product st form newId imageName iFail lFail).1.activity_logs =
        st.activity_logs ++ t) ∧
    ((successful (edit_product st pid form imageName iFail lFail).2 →
      ∃ e, (edit_product st pid form imageName iFail lFail).1.activity_logs =
        st.activity_logs ++ [e]) ∧
     ∃ t, (edit_product st pid form imageName iFail lFail).1.activity_logs =
        st.activity_logs ++ t) ∧
    ((successful (delete_product st pid dFail lFail).2 →
      ∃ e, (delete_product st pid dFail lFail).1.activity_logs =
        st.activity_logs ++ [e]) ∧
     ∃ t, (delete_product st pid dFail lFail).1.activity_logs =
        st.activity_logs ++ t) ∧
    ((successful (edit_profile st pform avatarName aFail lFail).2 →
      ∃ e, (edit_profile st pform avatarName aFail lFail).1.activity_logs =
        st.activity_logs ++ [e]) ∧
     ∃ t, (edit_profile st pform avatarName aFail lFail).1.activity_logs =
        st.activity_logs ++ t) := by
  obtain ⟨t1, h1, hs1⟩ := create_product_log st form newId imageName iFail lFail
  obtain ⟨t2, h2, hs2⟩ := edit_product_log st pid form imageName iFail lFail
  obtain ⟨t3, h3, hs3⟩ := delete_product_log st pid dFail lFail
  obtain ⟨t4, h4, hs4⟩ := edit_profile_log st pform avatarName aFail lFail
  refine ⟨⟨fun hs => ?_, ⟨t1, h1⟩⟩, ⟨fun hs => ?_, ⟨t2, h2⟩⟩,
    ⟨fun hs => ?_, ⟨t3, h3⟩⟩, ⟨fun hs => ?_, ⟨t4, h4⟩⟩⟩
  · obtain ⟨e, he⟩ := hs1 hs
    exact ⟨e, by rw [h1, he]⟩
  · obtain ⟨e, he⟩ := hs2 hs
    exact ⟨e, by rw [h2, he]⟩
  · obtain ⟨e, he⟩ := hs3 hs
    exact ⟨e, by rw [h3, he]⟩
  · obtain ⟨e, he⟩ := hs4 hs
    exact ⟨e, by rw [h4, he]⟩

/-- C8 witness: the successful concrete create appends exactly one
entry to the empty log. -/
theorem activity_log_exactly_once_append_only_witness :
    ∃ e, (create_product ⟨[], [], none, []⟩
        ⟨"Widget", "10", "Toys", "4", "", none⟩ 1 "img" false
        false).1.activity_logs =
      (⟨[], [], none, []⟩ : Store).activity_logs ++ [e] := by
  exact ((activity_log_exactly_once_append_only ⟨[], [], none, []⟩
    ⟨"Widget", "10", "Toys", "4", "", none⟩ ⟨"A", "e", none⟩ 1 1 "img" "av"
    false false false false).1).1
    (by rw [create_widget_eval]; exact Or.inl rfl)

/-- Concrete evaluation: a create whose text fields carry surrounding
whitespace persists the trimmed strings. -/
theorem create_trimmed_eval :
    create_product ⟨[], [], none, []⟩ ⟨" A ", "10", " T ", "4", " d ", none⟩
        1 "img" false false =
      (⟨[⟨1, "A", 10, "T", 4, "d", none⟩], [], none,
        [⟨"product_created", "Product \"A\" was created."⟩]⟩,
       Outcome.successOk) := by
  have hf : pyFloat "10" = some 10 := by
    simp +decide [pyFloat, splitSign, parseMantissa, parseExponent,
      natOfDigits, digitVal]
  have hi : pyInt "4" = some 4 := by
    simp +decide [pyInt, splitSign, natOfDigits, digitVal]
  simp +decide [create_product, log_activity,
    show pyStrip " A " = "A" from rfl,
    show pyStrip "10" = "10" from rfl,
    show pyStrip " T " = "T" from rfl,
    show pyStrip "4" = "4" from rfl,
    show pyStrip " d " = "d" from rfl, hf, hi]

/-- C10: every text field is stripped before validation and storage —
a required field that strips to the empty string (in particular a
whitespace-only value) is rejected with a ValidationError and no
mutation, by product create, product edit and profile update alike; and
on success the persisted name/category/description (resp. admin
name/email) are the stripped strings, not the raw input. -/
theorem form_fields_stripped (st : Store)
    (form : ProductForm) (pform : ProfileForm) (pid newId : Nat)
    (imageName avatarName : String) (iFail lFail aFail plFail : Bool) :
    ((pyStrip form.name = "" ∨ pyStrip form.price = "" ∨
      pyStrip form.category = "" ∨ pyStrip form.stock = "") →
      create_product st form newId imageName iFail lFail =
        (st, Outcome.validationError)) ∧
    (successful (create_product st form newId imageName iFail lFail).2 →
      ∃ prod, (create_product st form newId imageName iFail lFail).1.products =
          st.products ++ [prod] ∧
        prod.name = pyStrip form.name ∧
        prod.category = pyStrip form.category ∧
        prod.description = pyStrip form.description) ∧
    (∀ p, findProduct st pid = some p →
      (pyStrip form.name = "" ∨ pyStrip form.price = "" ∨
        pyStrip form.category = "" ∨ pyStrip form.stock = "") →
      edit_product st pid form imageName iFail lFail =
        (st, Outcome.validationError)) ∧
    (∀ p, findProduct st pid = some p →
      successful (edit_product st pid form imageName iFail lFail).2 →
      ∃ upd, (edit_product st pid form imageName iFail lFail).1.products =
          st.products.map (fun q => if q.id == pid then upd else q) ∧
        upd.name = pyStrip form.name ∧
        upd.category = pyStrip form.category ∧
        upd.description = pyStrip form.description) ∧
    (∀ a, st.admin = some a →
      (pyStrip pform.name = "" ∨ pyStrip pform.email = "") →
      edit_profile st pform avatarName aFail plFail =
        (st, Outcome.validationError)) ∧
    (∀ a, st.admin = some a →
      successful (edit_profile st pform avatarName aFail plFail).2 →
      ∃ adm, (edit_profile st pform avatarName aFail plFail).1.admin =
          some adm ∧
        adm.name = pyStrip pform.name ∧
        adm.email = pyStrip pform.email) := by
  refine ⟨create_product_required_empty st form newId imageName iFail lFail,
    fun hs => ?_, ?_, ?_, ?_, ?_⟩
  · obtain ⟨prod, heq, _, hn, hc, hd, _, _⟩ :=
      create_product_success_shape st form newId imageName iFail lFail hs
    exact ⟨prod, by rw [heq], hn, hc, hd⟩
  · intro p hp h
    exact edit_product_required_empty st pid form imageName iFail lFail p hp h
  · intro p hp hs
    obtain ⟨upd, heq, _, hn, hc, hd, _, _, _⟩ :=
      edit_product_success_shape st pid form imageName iFail lFail p hp hs
    exact ⟨upd, by rw [heq], hn, hc, hd⟩
  · intro a ha h
    exact edit_profile_required_empty st pform avatarName aFail plFail a ha h
  · intro a ha hs
    have hpost : edit_profile st pform avatarName aFail plFail =
        edit_profile_post st a pform avatarName aFail plFail := by
      simp only [edit_profile, ha]
    rw [hpost] at hs ⊢
    obtain ⟨adm, heq, _, hn, he, _⟩ :=
      edit_profile_post_success_shape st a pform avatarName aFail plFail hs
    exact ⟨adm, by rw [heq], hn, he⟩

/-- C10 witness: a whitespace-only name is rejected unchanged, and a
create with padded fields persists the trimmed strings. -/
theorem form_fields_stripped_witness :
    create_product ⟨[], [], none, []⟩ ⟨"   ", "10", "Toys", "4", "", none⟩
        1 "img" false false =
      (⟨[], [], none, []⟩, Outcome.validationError) ∧
    ∃ prod, (create_product ⟨[], [], none, []⟩
        ⟨" A ", "10", " T ", "4", " d ", none⟩ 1 "img" false
        false).1.products = [prod] ∧
      prod.name = "A" ∧ prod.category = "T" ∧ prod.description = "d" := by
  constructor
  · exact (form_fields_stripped ⟨[], [], none, []⟩
      ⟨"   ", "10", "Toys", "4", "", none⟩ ⟨"A", "e", none⟩ 1 1 "img" "av"
      false false false false).1 (Or.inl rfl)
  · have hsucc : successful (create_product ⟨[], [], none, []⟩
        ⟨" A ", "10", " T ", "4", " d ", none⟩ 1 "img" false false).2 := by
      rw [create_trimmed_eval]
      exact Or.inl rfl
    obtain ⟨prod, hprod, hn, hc, hd⟩ := (form_fields_stripped ⟨[], [], none, []⟩
      ⟨" A ", "10", " T ", "4", " d ", none⟩ ⟨"A", "e", none⟩ 1 1 "img" "av"
      false false false false).2.1 hsucc
    exact ⟨prod, hprod, hn, hc, hd⟩

end IstanbulGasht
